import Mathlib

/-!
Shallow embedding of the 8x8 LED-matrix text-scroller (src/src/main.rs).

The program drives a row/column multiplexed 8x8 LED matrix through 16 GPIO
output lines and scrolls a text across it.  We embed:

* the electrical `Level` of a line and the `BinaryColor` of a logical pixel;
* the `LedMatrix` state: 16 output pins (8 rows, 8 columns), each holding a
  pin number and a current level;
* `DrawTarget::draw_iter`: the per-pixel bounds check, the 8-way coordinate
  dispatch (with the `unreachable!()` fallback modelled as `Option.none`),
  the energize phase (column := !level, row := level) and the de-energize
  phase (column := level, row := !level);
* `LedMatrix::new`: sequential acquisition of the 16 lines, any failure
  propagating via `?` (embedded as `Except`);
* the animator loop body in `main`: one non-blocking `try_recv`, the `u8`
  wrapping increment of `offset_x`, the shadowed
  `offset_x as u32 % text.bounding_box().size.width`, and the submission of
  the rasterized pixel list (the rasterizer is an external collaborator,
  taken as a parameter).
-/

/-- Electrical level of a GPIO line (`rppal::gpio::Level`). -/
inductive Level where
  | low : Level
  | high : Level
deriving DecidableEq, Repr

/-- Rust's `!level` (`Not` impl on `Level`). -/
def Level.inv : Level → Level
  | .low => .high
  | .high => .low

/-- `embedded_graphics::pixelcolor::BinaryColor`. -/
inductive BinaryColor where
  | off : BinaryColor
  | on : BinaryColor
deriving DecidableEq, Repr

/-- A pixel as handed to `draw_iter`: an `i32` point plus a binary color. -/
structure Pixel where
  x : Int
  y : Int
  color : BinaryColor
deriving DecidableEq, Repr

/-- `let level = match c { BinaryColor::On => Level::High, BinaryColor::Off => Level::Low }`. -/
def colorToLevel : BinaryColor → Level
  | .on => Level.high
  | .off => Level.low

/-- An `rppal::gpio::OutputPin`: the BCM pin number it was acquired for and
the electrical level it currently holds. -/
structure OutputPin where
  pin : Nat
  level : Level
deriving DecidableEq, Repr

/-- `pin.write(l)`. -/
def OutputPin.write (p : OutputPin) (l : Level) : OutputPin :=
  { p with level := l }

/-- The `LedMatrix` struct: 8 row pins and 8 column pins. -/
structure LedMatrix where
  row_1 : OutputPin
  row_2 : OutputPin
  row_3 : OutputPin
  row_4 : OutputPin
  row_5 : OutputPin
  row_6 : OutputPin
  row_7 : OutputPin
  row_8 : OutputPin
  col_1 : OutputPin
  col_2 : OutputPin
  col_3 : OutputPin
  col_4 : OutputPin
  col_5 : OutputPin
  col_6 : OutputPin
  col_7 : OutputPin
  col_8 : OutputPin
deriving DecidableEq, Repr

/-- The 8-way `match p.x` that writes a column line.  The `_ => unreachable!()`
fallback is modelled as `none`. -/
def writeCol (s : LedMatrix) (x : Int) (l : Level) : Option LedMatrix :=
  match x with
  | 0 => some { s with col_1 := s.col_1.write l }
  | 1 => some { s with col_2 := s.col_2.write l }
  | 2 => some { s with col_3 := s.col_3.write l }
  | 3 => some { s with col_4 := s.col_4.write l }
  | 4 => some { s with col_5 := s.col_5.write l }
  | 5 => some { s with col_6 := s.col_6.write l }
  | 6 => some { s with col_7 := s.col_7.write l }
  | 7 => some { s with col_8 := s.col_8.write l }
  | _ => none

/-- The 8-way `match p.y` that writes a row line.  The `_ => unreachable!()`
fallback is modelled as `none`. -/
def writeRow (s : LedMatrix) (y : Int) (l : Level) : Option LedMatrix :=
  match y with
  | 0 => some { s with row_1 := s.row_1.write l }
  | 1 => some { s with row_2 := s.row_2.write l }
  | 2 => some { s with row_3 := s.row_3.write l }
  | 3 => some { s with row_4 := s.row_4.write l }
  | 4 => some { s with row_5 := s.row_5.write l }
  | 5 => some { s with row_6 := s.row_6.write l }
  | 6 => some { s with row_7 := s.row_7.write l }
  | 7 => some { s with row_8 := s.row_8.write l }
  | _ => none

/-- Read back the level of the column line addressed by `x` (for stating
properties; `none` where the dispatch has no arm). -/
def readCol (s : LedMatrix) (x : Int) : Option Level :=
  match x with
  | 0 => some s.col_1.level
  | 1 => some s.col_2.level
  | 2 => some s.col_3.level
  | 3 => some s.col_4.level
  | 4 => some s.col_5.level
  | 5 => some s.col_6.level
  | 6 => some s.col_7.level
  | 7 => some s.col_8.level
  | _ => none

/-- Read back the level of the row line addressed by `y`. -/
def readRow (s : LedMatrix) (y : Int) : Option Level :=
  match y with
  | 0 => some s.row_1.level
  | 1 => some s.row_2.level
  | 2 => some s.row_3.level
  | 3 => some s.row_4.level
  | 4 => some s.row_5.level
  | 5 => some s.row_6.level
  | 6 => some s.row_7.level
  | 7 => some s.row_8.level
  | _ => none

/-- `self.bounding_box().contains(p)` for an `OriginDimensions` surface of
size 8x8 at the origin. -/
def inBounds (p : Pixel) : Bool :=
  0 ≤ p.x && p.x < 8 && 0 ≤ p.y && p.y < 8

/-- The "turn on the LED" phase of one pixel flash: the column line is driven
to the inverse of the requested level, the row line to the requested level. -/
def energize (s : LedMatrix) (p : Pixel) : Option LedMatrix := do
  let level := colorToLevel p.color
  let s1 ← writeCol s p.x level.inv
  writeRow s1 p.y level

/-- The "turn off the LED" phase of one pixel flash: the column line is driven
to the requested level, the row line to its inverse. -/
def deenergize (s : LedMatrix) (p : Pixel) : Option LedMatrix := do
  let level := colorToLevel p.color
  let s1 ← writeCol s p.x level
  writeRow s1 p.y level.inv

/-- The body of the `for Pixel(p, c) in pixels` loop: if the pixel is inside
the 8x8 bounding box, flash it (energize, dwell, de-energize, dwell);
otherwise skip it silently.  `none` models hitting an `unreachable!()` arm. -/
def drawPixel (s : LedMatrix) (p : Pixel) : Option LedMatrix :=
  if inBounds p then do
    let s1 ← energize s p
    deenergize s1 p
  else
    some s

/-- `draw_iter`: process the pixel sequence in order.  The Rust function
returns `Result<(), Infallible>`; reaching an `unreachable!()` arm (`none`
here) is a panic, not an error, so the error type stays uninhabited. -/
def drawIter (s : LedMatrix) (ps : List Pixel) : Option LedMatrix :=
  ps.foldlM drawPixel s

/-- `rppal::gpio::Error` (abstracted: the claims only need that a failure is a
failure). -/
inductive GpioError where
  | acquisitionFailed (pin : Nat) : GpioError
deriving DecidableEq, Repr

/-- An unconfigured `rppal::gpio::Pin`, as returned by `Gpio::get`. -/
structure GpioPin where
  pin : Nat
deriving DecidableEq, Repr

/-- `pin.into_output_low()`: configure as output, initial level low. -/
def GpioPin.intoOutputLow (p : GpioPin) : OutputPin :=
  { pin := p.pin, level := Level.low }

/-- `pin.into_output_high()`: configure as output, initial level high. -/
def GpioPin.intoOutputHigh (p : GpioPin) : OutputPin :=
  { pin := p.pin, level := Level.high }

/-- The hardware line provider (`Gpio::get`), an external collaborator: for a
BCM pin number, either a pin handle or a failure. -/
def GpioGet : Type := Nat → Except GpioError GpioPin

/-- `LedMatrix::new`: acquire the 8 row lines (configured output-low) then the
8 column lines (configured output-high), in source order; each `?` propagates
the first failure, so construction fails as a whole. -/
def LedMatrix.new (gpio : GpioGet)
    (row_1_pin_number row_2_pin_number row_3_pin_number row_4_pin_number
     row_5_pin_number row_6_pin_number row_7_pin_number row_8_pin_number
     col_1_pin_number col_2_pin_number col_3_pin_number col_4_pin_number
     col_5_pin_number col_6_pin_number col_7_pin_number col_8_pin_number : Nat) :
    Except GpioError LedMatrix := do
  let row_1 := (← gpio row_1_pin_number).intoOutputLow
  let row_2 := (← gpio row_2_pin_number).intoOutputLow
  let row_3 := (← gpio row_3_pin_number).intoOutputLow
  let row_4 := (← gpio row_4_pin_number).intoOutputLow
  let row_5 := (← gpio row_5_pin_number).intoOutputLow
  let row_6 := (← gpio row_6_pin_number).intoOutputLow
  let row_7 := (← gpio row_7_pin_number).intoOutputLow
  let row_8 := (← gpio row_8_pin_number).intoOutputLow
  let col_1 := (← gpio col_1_pin_number).intoOutputHigh
  let col_2 := (← gpio col_2_pin_number).intoOutputHigh
  let col_3 := (← gpio col_3_pin_number).intoOutputHigh
  let col_4 := (← gpio col_4_pin_number).intoOutputHigh
  let col_5 := (← gpio col_5_pin_number).intoOutputHigh
  let col_6 := (← gpio col_6_pin_number).intoOutputHigh
  let col_7 := (← gpio col_7_pin_number).intoOutputHigh
  let col_8 := (← gpio col_8_pin_number).intoOutputHigh
  pure { row_1, row_2, row_3, row_4, row_5, row_6, row_7, row_8,
         col_1, col_2, col_3, col_4, col_5, col_6, col_7, col_8 }

/-! ## Animator loop model

`main`'s drawing thread keeps `offset_x : u8` and, per loop iteration, does
one non-blocking `try_recv`, increments with `wrapping_add(1)` on success,
computes `offset_x as u32 % text.bounding_box().size.width`, and draws the
text translated by `(-effectiveOffset, 0)`.  `u8` values are embedded as
`Nat` reduced mod 256.  The channel's pending queue is embedded by the count
of queued unit signals (the signals carry no payload). -/

/-- `offset_x.wrapping_add(1)` on a `u8` represented as a `Nat` below 256. -/
def tick8 (o : Nat) : Nat :=
  (o + 1) % 256

/-- `offset_x as u32 % width` (the shadowed local binding). -/
def effectiveOffset (o width : Nat) : Nat :=
  o % width

/-- Animator state: the persistent `offset_x` counter and the number of tick
signals currently pending on the channel. -/
structure AnimState where
  offset : Nat
  pending : Nat
deriving DecidableEq, Repr

/-- `rx.try_recv()`: succeeds and dequeues one signal iff at least one is
pending; never blocks. -/
def tryRecv (pending : Nat) : Bool × Nat :=
  if pending = 0 then (false, 0) else (true, pending - 1)

/-- The tick-handling head of one loop iteration:
`if rx.try_recv().is_ok() { offset_x = offset_x.wrapping_add(1); }`. -/
def animTick (s : AnimState) : AnimState :=
  let r := tryRecv s.pending
  { offset := if r.1 then tick8 s.offset else s.offset, pending := r.2 }

/-- One full loop iteration: handle at most one tick, then rasterize the text
at the effective offset and submit that pixel list to the display.  The
rasterizer (`text.translate(..)` pixel production) is an external
collaborator, passed as the function `render` from effective offset to pixel
list; `width` is `text.bounding_box().size.width`.  Returns the successor
state and the submitted pixel list. -/
def iteration (render : Nat → List Pixel) (width : Nat) (s : AnimState) :
    AnimState × List Pixel :=
  let s1 := animTick s
  (s1, render (effectiveOffset s1.offset width))

/-! ## Source constants and the constructed initial state -/

/-- BCM pin numbers from the source (`const ROW_1: u8 = 8;` etc.). -/
def ROW_1 : Nat := 8

def ROW_2 : Nat := 13

def ROW_3 : Nat := 7

def ROW_4 : Nat := 11

def ROW_5 : Nat := 0

def ROW_6 : Nat := 6

def ROW_7 : Nat := 1

def ROW_8 : Nat := 4

def COL_1 : Nat := 16

def COL_2 : Nat := 2

def COL_3 : Nat := 3

def COL_4 : Nat := 9

def COL_5 : Nat := 5

def COL_6 : Nat := 10

def COL_7 : Nat := 14

def COL_8 : Nat := 15

/-- A line provider where every acquisition succeeds. -/
def gpioAllOk : GpioGet := fun n => Except.ok ⟨n⟩

/-- The display state right after successful construction: rows output-low,
columns output-high (the inactive levels for this wiring). -/
def initialMatrix : LedMatrix :=
  { row_1 := ⟨ROW_1, Level.low⟩
    row_2 := ⟨ROW_2, Level.low⟩
    row_3 := ⟨ROW_3, Level.low⟩
    row_4 := ⟨ROW_4, Level.low⟩
    row_5 := ⟨ROW_5, Level.low⟩
    row_6 := ⟨ROW_6, Level.low⟩
    row_7 := ⟨ROW_7, Level.low⟩
    row_8 := ⟨ROW_8, Level.low⟩
    col_1 := ⟨COL_1, Level.high⟩
    col_2 := ⟨COL_2, Level.high⟩
    col_3 := ⟨COL_3, Level.high⟩
    col_4 := ⟨COL_4, Level.high⟩
    col_5 := ⟨COL_5, Level.high⟩
    col_6 := ⟨COL_6, Level.high⟩
    col_7 := ⟨COL_7, Level.high⟩
    col_8 := ⟨COL_8, Level.high⟩ }

/-- Sanity: constructing with an all-ok provider yields `initialMatrix`. -/
theorem new_allOk_eq_initial :
    LedMatrix.new gpioAllOk ROW_1 ROW_2 ROW_3 ROW_4 ROW_5 ROW_6 ROW_7 ROW_8
      COL_1 COL_2 COL_3 COL_4 COL_5 COL_6 COL_7 COL_8 = Except.ok initialMatrix := rfl

/-! ## Helper lemmas about the dispatch functions -/

theorem OutputPin.write_write (p : OutputPin) (a b : Level) :
    (p.write a).write b = p.write b := rfl

theorem OutputPin.write_self (p : OutputPin) (l : Level) (h : p.level = l) :
    p.write l = p := by
  cases p
  cases h
  rfl

theorem writeCol_some (s : LedMatrix) (l : Level) {x : Int}
    (h0 : 0 ≤ x) (h8 : x < 8) : ∃ t, writeCol s x l = some t := by
  interval_cases x <;> exact ⟨_, rfl⟩

theorem writeRow_some (s : LedMatrix) (l : Level) {y : Int}
    (h0 : 0 ≤ y) (h8 : y < 8) : ∃ t, writeRow s y l = some t := by
  interval_cases y <;> exact ⟨_, rfl⟩

theorem inBounds_spec {p : Pixel} (h : inBounds p = true) :
    0 ≤ p.x ∧ p.x < 8 ∧ 0 ≤ p.y ∧ p.y < 8 := by
  simp only [inBounds, Bool.and_eq_true, decide_eq_true_eq] at h
  exact ⟨h.1.1.1, h.1.1.2, h.1.2, h.2⟩

theorem energize_some (s : LedMatrix) {p : Pixel} (h : inBounds p = true) :
    ∃ t, energize s p = some t := by
  obtain ⟨hx0, hx8, hy0, hy8⟩ := inBounds_spec h
  obtain ⟨t1, ht1⟩ := writeCol_some s (colorToLevel p.color).inv hx0 hx8
  obtain ⟨t2, ht2⟩ := writeRow_some t1 (colorToLevel p.color) hy0 hy8
  exact ⟨t2, by simp [energize, bind, Option.bind, ht1, ht2]⟩

theorem deenergize_some (s : LedMatrix) {p : Pixel} (h : inBounds p = true) :
    ∃ t, deenergize s p = some t := by
  obtain ⟨hx0, hx8, hy0, hy8⟩ := inBounds_spec h
  obtain ⟨t1, ht1⟩ := writeCol_some s (colorToLevel p.color) hx0 hx8
  obtain ⟨t2, ht2⟩ := writeRow_some t1 (colorToLevel p.color).inv hy0 hy8
  exact ⟨t2, by simp [deenergize, bind, Option.bind, ht1, ht2]⟩

theorem drawPixel_some (s : LedMatrix) (p : Pixel) : ∃ t, drawPixel s p = some t := by
  by_cases h : inBounds p = true
  · obtain ⟨t1, ht1⟩ := energize_some s h
    obtain ⟨t2, ht2⟩ := deenergize_some t1 h
    exact ⟨t2, by simp [drawPixel, h, bind, Option.bind, ht1, ht2]⟩
  · exact ⟨s, by simp [drawPixel, h]⟩

theorem drawIter_some (s : LedMatrix) (ps : List Pixel) :
    ∃ t, drawIter s ps = some t := by
  induction ps generalizing s with
  | nil => exact ⟨s, rfl⟩
  | cons p ps ih =>
    obtain ⟨t1, ht1⟩ := drawPixel_some s p
    obtain ⟨t2, ht2⟩ := ih t1
    refine ⟨t2, ?_⟩
    simp only [drawIter, List.foldlM_cons, ht1, bind, Option.bind]
    simpa [drawIter] using ht2

/-! ## Claim theorems: display surface -/

/-- C4: the draw operation always returns success (its error type is
uninhabited and the result is always defined), every out-of-bounds pixel is
skipped silently with no line-state change, a pixel at (7,7) is in bounds and
addressed via the column-8/row-8 lines, and a pixel at (8,0) is out of bounds
and silently dropped. -/
theorem c4_draw_infallible_oob_skipped (s : LedMatrix) (ps : List Pixel)
    (p : Pixel) (h : inBounds p = false) :
    (∃ t, drawIter s ps = some t) ∧
    drawPixel s p = some s ∧
    inBounds ⟨7, 7, BinaryColor.on⟩ = true ∧
    energize s ⟨7, 7, BinaryColor.on⟩ =
      some { s with col_8 := s.col_8.write Level.low,
                    row_8 := s.row_8.write Level.high } ∧
    inBounds ⟨8, 0, BinaryColor.on⟩ = false ∧
    drawPixel s ⟨8, 0, BinaryColor.on⟩ = some s := by
  refine ⟨drawIter_some s ps, ?_, by decide, rfl, by decide, rfl⟩
  simp [drawPixel, h]

/-- Witness for C4 at a concrete state and pixel list. -/
theorem c4_witness :
    (∃ t, drawIter initialMatrix [⟨8, 0, BinaryColor.on⟩] = some t) ∧
    drawPixel initialMatrix ⟨8, 0, BinaryColor.on⟩ = some initialMatrix ∧
    inBounds ⟨7, 7, BinaryColor.on⟩ = true ∧
    energize initialMatrix ⟨7, 7, BinaryColor.on⟩ =
      some { initialMatrix with
              col_8 := initialMatrix.col_8.write Level.low,
              row_8 := initialMatrix.row_8.write Level.high } ∧
    inBounds ⟨8, 0, BinaryColor.on⟩ = false ∧
    drawPixel initialMatrix ⟨8, 0, BinaryColor.on⟩ = some initialMatrix :=
  c4_draw_infallible_oob_skipped initialMatrix [⟨8, 0, BinaryColor.on⟩]
    ⟨8, 0, BinaryColor.on⟩ (by decide)

/-- C5: for every in-bounds pixel with requested level `colorToLevel c`, the
energize phase drives the addressed column line to the inverse of that level
and the addressed row line to the level itself. -/
theorem c5_energize_complementary (s : LedMatrix) (p : Pixel)
    (h : inBounds p = true) :
    ∃ t, energize s p = some t ∧
      readCol t p.x = some (colorToLevel p.color).inv ∧
      readRow t p.y = some (colorToLevel p.color) := by
  obtain ⟨x, y, c⟩ := p
  obtain ⟨hx0, hx8, hy0, hy8⟩ := inBounds_spec h
  simp only at hx0 hx8 hy0 hy8
  interval_cases x <;> interval_cases y <;> exact ⟨_, rfl, rfl, rfl⟩

/-- Witness for C5 at the initial state and the pixel (0,0,on). -/
theorem c5_witness :
    ∃ t, energize initialMatrix ⟨0, 0, BinaryColor.on⟩ = some t ∧
      readCol t 0 = some (colorToLevel BinaryColor.on).inv ∧
      readRow t 0 = some (colorToLevel BinaryColor.on) :=
  c5_energize_complementary initialMatrix ⟨0, 0, BinaryColor.on⟩ (by decide)

/-- C9: for an in-bounds pixel both 8-way dispatches hit a real arm (the
`unreachable!()` fallback, modelled as `none`, is never taken), and since the
bounds check precedes every dispatch, processing any pixel sequence never
panics. -/
theorem c9_fallback_arms_unreachable (s : LedMatrix) (p : Pixel)
    (ps : List Pixel) (h : inBounds p = true) :
    (∃ t, writeCol s p.x (colorToLevel p.color).inv = some t) ∧
    (∃ t, writeRow s p.y (colorToLevel p.color) = some t) ∧
    (∃ t, drawIter s ps = some t) := by
  obtain ⟨hx0, hx8, hy0, hy8⟩ := inBounds_spec h
  exact ⟨writeCol_some s _ hx0 hx8, writeRow_some s _ hy0 hy8, drawIter_some s ps⟩

/-- Witness for C9 at the initial state, the pixel (3,5,on) and a two-pixel
sequence. -/
theorem c9_witness :
    (∃ t, writeCol initialMatrix 3 (colorToLevel BinaryColor.on).inv = some t) ∧
    (∃ t, writeRow initialMatrix 5 (colorToLevel BinaryColor.on) = some t) ∧
    (∃ t, drawIter initialMatrix
            [⟨3, 5, BinaryColor.on⟩, ⟨100, -4, BinaryColor.off⟩] = some t) :=
  c9_fallback_arms_unreachable initialMatrix ⟨3, 5, BinaryColor.on⟩
    [⟨3, 5, BinaryColor.on⟩, ⟨100, -4, BinaryColor.off⟩] (by decide)

/-- C2 counterexample: drawing the in-bounds pixel (0,0) with color Off on the
freshly constructed display does not restore the pre-draw state: the flash
ends with column = requested level and row = its inverse, so for an Off pixel
the addressed column line ends Low and the row line High, not their pre-draw
levels. -/
theorem c2_counterexample :
    ¬ (drawPixel initialMatrix ⟨0, 0, BinaryColor.off⟩ = some initialMatrix) := by
  decide

/-- C2 (amended): for every in-bounds pixel of color On whose addressed
column line rests High and whose addressed row line rests Low before the draw
(the de-energized levels, as established at construction), the flash is
transient: after it completes every output line equals its pre-draw state. -/
theorem c2_flash_transient_on_inactive (s : LedMatrix) (p : Pixel)
    (hb : inBounds p = true) (hc : p.color = BinaryColor.on)
    (hcol : readCol s p.x = some Level.high)
    (hrow : readRow s p.y = some Level.low) :
    drawPixel s p = some s := by
  obtain ⟨x, y, c⟩ := p
  simp only at hc
  cases hc
  obtain ⟨hx0, hx8, hy0, hy8⟩ := inBounds_spec hb
  simp only at hx0 hx8 hy0 hy8
  interval_cases x <;> interval_cases y <;>
  · simp only [readCol, Option.some.injEq] at hcol
    simp only [readRow, Option.some.injEq] at hrow
    simp [drawPixel, inBounds, energize, deenergize, writeCol, writeRow,
          colorToLevel, Level.inv, bind, Option.bind, OutputPin.write_write,
          OutputPin.write_self _ _ hcol, OutputPin.write_self _ _ hrow]

/-- Witness for the amended C2: an On pixel at (3,2) on the freshly
constructed display is restored exactly. -/
theorem c2_witness :
    drawPixel initialMatrix ⟨3, 2, BinaryColor.on⟩ = some initialMatrix :=
  c2_flash_transient_on_inactive initialMatrix ⟨3, 2, BinaryColor.on⟩
    (by decide) rfl rfl rfl

/-! ## Claim theorems: animator loop -/

/-- C1 counterexample: with 2 tick signals pending and offset 0, one loop
iteration does not drain both and advance the offset by 2 — the code performs
a single `try_recv` per iteration, so it consumes one signal and advances by
one, leaving one pending. -/
theorem c1_counterexample :
    ¬ (animTick ⟨0, 2⟩ = ⟨2, 0⟩) := by decide

/-- C1 (amended): one Animator loop iteration non-blockingly receives at most
one pending tick signal: with N = 0 pending the offset and the queue are
unchanged; with N > 0 pending it consumes exactly one signal and advances the
offset by exactly one (wrapping 8-bit arithmetic), leaving N - 1 pending.
Pending ticks are consumed one per iteration, not drained in a batch. -/
theorem c1_at_most_one_tick_per_iteration (o n : Nat) :
    animTick ⟨o, n⟩ = if n = 0 then ⟨o, 0⟩ else ⟨tick8 o, n - 1⟩ := by
  by_cases h : n = 0 <;> simp [animTick, tryRecv, h]

/-- C3 counterexample: with the spec's example text width 11 and starting
offset 250, advancing by 11 single-tick increments crosses the u8 wraparound
(250 + 11 ≡ 5 mod 256) and effectiveOffset changes from 250 % 11 = 8 to
5 % 11 = 5: the cycle law fails at the 8-bit wrap. -/
theorem c3_counterexample :
    ¬ (effectiveOffset (tick8^[11] 250) 11 = effectiveOffset 250 11) := by
  decide

theorem tick8_iterate_no_wrap (n : Nat) :
    ∀ o : Nat, o + n < 256 → tick8^[n] o = o + n := by
  induction n with
  | zero => intro o _; rfl
  | succ k ih =>
    intro o ho
    rw [Function.iterate_succ_apply]
    have h1 : tick8 o = o + 1 := by
      unfold tick8
      omega
    rw [h1, ih (o + 1) (by omega)]
    omega

/-- C3 (amended): advancing the offset by textWidth single-tick increments is
a no-op on effectiveOffset for every starting offset o with
o + textWidth < 256, i.e. whenever the 8-bit counter does not wrap during
those increments; across the u8 wraparound the law fails whenever textWidth
does not divide 256. -/
theorem c3_cycle_law_without_wrap (o width : Nat) (h : o + width < 256) :
    effectiveOffset (tick8^[width] o) width = effectiveOffset o width := by
  rw [tick8_iterate_no_wrap width o h]
  unfold effectiveOffset
  exact Nat.add_mod_right o width

/-- Witness for the amended C3 at offset 3 and width 11. -/
theorem c3_witness :
    effectiveOffset (tick8^[11] 3) 11 = effectiveOffset 3 11 :=
  c3_cycle_law_without_wrap 3 11 (by decide)

/-- C6 counterexample: with the spec's example text width 11, eleven loop
iterations each receiving one tick take the persistent offset counter from 0
to 11, and 11 is not in [0, 11): the counter is not wrapped modulo the text
width. -/
theorem c6_counterexample :
    (animTick^[11] ⟨0, 11⟩).offset = 11 ∧
    ¬ ((animTick^[11] ⟨0, 11⟩).offset < 11) := by decide

/-- C6 (amended): the persistent counter is an 8-bit value wrapped modulo
256, so it stays in [0, 256) across every loop iteration and advances by at
most one unit per iteration (one per received tick); the value reduced modulo
the text's bounding-box width is the derived effectiveOffset, which lies in
[0, textWidth) for every positive textWidth. -/
theorem c6_offset_invariant (o n width : Nat) (ho : o < 256) (hw : 0 < width) :
    (animTick ⟨o, n⟩).offset < 256 ∧
    effectiveOffset (animTick ⟨o, n⟩).offset width < width := by
  have hoff : (animTick ⟨o, n⟩).offset < 256 := by
    by_cases h : n = 0 <;> simp [animTick, tryRecv, h, tick8] <;> omega
  exact ⟨hoff, Nat.mod_lt _ hw⟩

/-- Witness for the amended C6 at offset 255, one pending tick, width 11. -/
theorem c6_witness :
    (animTick ⟨255, 1⟩).offset < 256 ∧
    effectiveOffset (animTick ⟨255, 1⟩).offset 11 < 11 :=
  c6_offset_invariant 255 1 11 (by decide) (by decide)

theorem animTick_pending_zero {s : AnimState} (h : s.pending = 0) :
    animTick s = s := by
  obtain ⟨o, n⟩ := s
  simp only at h
  simp [animTick, tryRecv, h]

/-- C8: if zero tick signals are pending when the next iteration starts (no
tick received between two consecutive redraw iterations), the pixel list
submitted to the display is identical in both iterations: the redraw is a
deterministic function of the offset, which is unchanged when no tick is
observed. -/
theorem c8_no_tick_same_pixels (render : Nat → List Pixel) (width : Nat)
    (s : AnimState) (h : (iteration render width s).1.pending = 0) :
    (iteration render width (iteration render width s).1).2 =
      (iteration render width s).2 := by
  unfold iteration at h ⊢
  rw [animTick_pending_zero h]

/-- Witness for C8: a concrete renderer, width 11, and a state with exactly
one pending tick (consumed by the first iteration). -/
theorem c8_witness :
    (iteration (fun o => [⟨Int.ofNat o, 0, BinaryColor.on⟩]) 11
        (iteration (fun o => [⟨Int.ofNat o, 0, BinaryColor.on⟩]) 11 ⟨4, 1⟩).1).2 =
      (iteration (fun o => [⟨Int.ofNat o, 0, BinaryColor.on⟩]) 11 ⟨4, 1⟩).2 :=
  c8_no_tick_same_pixels (fun o => [⟨Int.ofNat o, 0, BinaryColor.on⟩]) 11 ⟨4, 1⟩ rfl

/-- C10: the scroll offset is an 8-bit unsigned counter advanced with
wrapping addition: from any value below 256 the increment stays below 256,
incrementing at 255 wraps to 0, and the increment is total (never fails),
independently of the text's bounding-box width. -/
theorem c10_u8_wrapping_counter :
    (∀ o : Nat, o < 256 → tick8 o < 256) ∧ tick8 255 = 0 := by
  constructor
  · intro o _
    exact Nat.mod_lt _ (by omega)
  · rfl

/-- Witness for C10 at offset 7. -/
theorem c10_witness : tick8 7 < 256 :=
  c10_u8_wrapping_counter.1 7 (by decide)

/-! ## Claim theorem: construction -/

theorem except_bind_ok {α β : Type} {e : Except GpioError α}
    {k : α → Except GpioError β} {b : β} (h : e >>= k = Except.ok b) :
    ∃ a, e = Except.ok a ∧ k a = Except.ok b := by
  cases e with
  | error err => simp [Bind.bind, Except.bind] at h
  | ok a => exact ⟨a, rfl, by simpa [Bind.bind, Except.bind] using h⟩

/-- C7: if any one of the 16 line acquisitions fails, `LedMatrix::new` fails
as a whole: it returns the failure and no display object is constructed. -/
theorem c7_construction_fails_as_whole (gpio : GpioGet)
    (r1 r2 r3 r4 r5 r6 r7 r8 q1 q2 q3 q4 q5 q6 q7 q8 : Nat)
    (h : (∃ e, gpio r1 = Except.error e) ∨ (∃ e, gpio r2 = Except.error e) ∨
         (∃ e, gpio r3 = Except.error e) ∨ (∃ e, gpio r4 = Except.error e) ∨
         (∃ e, gpio r5 = Except.error e) ∨ (∃ e, gpio r6 = Except.error e) ∨
         (∃ e, gpio r7 = Except.error e) ∨ (∃ e, gpio r8 = Except.error e) ∨
         (∃ e, gpio q1 = Except.error e) ∨ (∃ e, gpio q2 = Except.error e) ∨
         (∃ e, gpio q3 = Except.error e) ∨ (∃ e, gpio q4 = Except.error e) ∨
         (∃ e, gpio q5 = Except.error e) ∨ (∃ e, gpio q6 = Except.error e) ∨
         (∃ e, gpio q7 = Except.error e) ∨ (∃ e, gpio q8 = Except.error e)) :
    ∃ e, LedMatrix.new gpio r1 r2 r3 r4 r5 r6 r7 r8 q1 q2 q3 q4 q5 q6 q7 q8 =
      Except.error e := by
  cases hnew : LedMatrix.new gpio r1 r2 r3 r4 r5 r6 r7 r8 q1 q2 q3 q4 q5 q6 q7 q8 with
  | error e => exact ⟨e, rfl⟩
  | ok m =>
    exfalso
    unfold LedMatrix.new at hnew
    obtain ⟨a1, h1, hnew⟩ := except_bind_ok hnew
    simp only [GpioPin.intoOutputLow, GpioPin.intoOutputHigh] at hnew
    obtain ⟨a2, h2, hnew⟩ := except_bind_ok hnew
    obtain ⟨a3, h3, hnew⟩ := except_bind_ok hnew
    obtain ⟨a4, h4, hnew⟩ := except_bind_ok hnew
    obtain ⟨a5, h5, hnew⟩ := except_bind_ok hnew
    obtain ⟨a6, h6, hnew⟩ := except_bind_ok hnew
    obtain ⟨a7, h7, hnew⟩ := except_bind_ok hnew
    obtain ⟨a8, h8, hnew⟩ := except_bind_ok hnew
    obtain ⟨b1, g1, hnew⟩ := except_bind_ok hnew
    obtain ⟨b2, g2, hnew⟩ := except_bind_ok hnew
    obtain ⟨b3, g3, hnew⟩ := except_bind_ok hnew
    obtain ⟨b4, g4, hnew⟩ := except_bind_ok hnew
    obtain ⟨b5, g5, hnew⟩ := except_bind_ok hnew
    obtain ⟨b6, g6, hnew⟩ := except_bind_ok hnew
    obtain ⟨b7, g7, hnew⟩ := except_bind_ok hnew
    obtain ⟨b8, g8, hnew⟩ := except_bind_ok hnew
    clear hnew
    rcases h with ⟨e, he⟩ | ⟨e, he⟩ | ⟨e, he⟩ | ⟨e, he⟩ | ⟨e, he⟩ | ⟨e, he⟩ |
      ⟨e, he⟩ | ⟨e, he⟩ | ⟨e, he⟩ | ⟨e, he⟩ | ⟨e, he⟩ | ⟨e, he⟩ | ⟨e, he⟩ |
      ⟨e, he⟩ | ⟨e, he⟩ | ⟨e, he⟩ <;>
    · simp only [h1, h2, h3, h4, h5, h6, h7, h8,
                 g1, g2, g3, g4, g5, g6, g7, g8] at he
      exact Except.noConfusion he

/-- A line provider that fails exactly on the pin wired to row 3 (BCM 7). -/
def gpioFailRow3 : GpioGet := fun n =>
  if n = ROW_3 then Except.error (GpioError.acquisitionFailed n) else Except.ok ⟨n⟩

/-- Witness for C7: with an injected fault on the row-3 pin, construction
with the source's 16 pin numbers reports failure. -/
theorem c7_witness :
    ∃ e, LedMatrix.new gpioFailRow3 ROW_1 ROW_2 ROW_3 ROW_4 ROW_5 ROW_6 ROW_7
      ROW_8 COL_1 COL_2 COL_3 COL_4 COL_5 COL_6 COL_7 COL_8 = Except.error e :=
  c7_construction_fails_as_whole gpioFailRow3 ROW_1 ROW_2 ROW_3 ROW_4 ROW_5
    ROW_6 ROW_7 ROW_8 COL_1 COL_2 COL_3 COL_4 COL_5 COL_6 COL_7 COL_8
    (Or.inr (Or.inr (Or.inl ⟨GpioError.acquisitionFailed ROW_3, rfl⟩)))
